import Mathlib

/-!
Shallow embedding of `src/note_overlay.py` (quicknotes): an always-on-top
note overlay with a text buffer, a single-shot 2000 ms debounce autosave
timer, save/load helpers over a fixed default path, a pinned toggle and a
click-through toggle (Windows extended-style bit manipulation).

Paths (`pathlib.Path` values) are modelled as their component lists, so
`Path.home() / ".overlay_notes.txt"` is `["~", ".overlay_notes.txt"]` and
`path.parent` is `List.dropLast`. File I/O is modelled by an explicit
file-system state (contents by path plus a set of existing directories);
fallible reads and writes take an explicit success flag and report failure
as a value, mirroring the try/except blocks in the source. The debounce
timer is modelled by an optional absolute deadline, and the event-driven
behaviour by a step function over timed events.
-/

namespace NoteOverlay

/-- Windows extended-style constant `WS_EX_TRANSPARENT = 0x00000020`
(note_overlay.py line 28); equal to `2 ^ 5`. -/
def WS_EX_TRANSPARENT : Nat := 0x00000020

/-- Windows extended-style constant `WS_EX_LAYERED = 0x00080000`
(note_overlay.py line 29); equal to `2 ^ 19`. -/
def WS_EX_LAYERED : Nat := 0x00080000

/-- Paths are component lists of a `pathlib.Path`. -/
abbrev FilePath : Type := List String

/-- Fixed default save path `DEFAULT_SAVE = Path.home() / ".overlay_notes.txt"`
(note_overlay.py line 33), with the home directory rendered as `~`. -/
def DEFAULT_SAVE : FilePath := ["~", ".overlay_notes.txt"]

/-- File-system state: file contents by path, and which directories exist. -/
structure FSState where
  files : FilePath → Option String
  dirs : FilePath → Bool

/-- Chain of ancestor directories of a path, as created by
`path.parent.mkdir(parents=True, exist_ok=True)` (note_overlay.py line 210):
all nonempty prefixes of `path.parent`. -/
def ancestorDirs (p : FilePath) : List FilePath :=
  let comps := p.dropLast
  (List.range comps.length).map (fun i => comps.take (i + 1))

/-- Effect of `path.parent.mkdir(parents=True, exist_ok=True)` on the set of
existing directories: every ancestor of `p` now exists. -/
def mkdirParents (dirs : FilePath → Bool) (p : FilePath) : FilePath → Bool :=
  fun q => (ancestorDirs p).contains q || dirs q

/-- `save_notes` (note_overlay.py lines 208-212): create the parent
directories, then open the file for writing and write the buffer verbatim.
The write may fail (`writeOk = false`), in which case the file contents are
untouched and the failure is reported as an error value (the python version
raises; its callers catch). -/
def save_notes (text : String) (path : FilePath) (fs : FSState) (writeOk : Bool) :
    Except String Unit × FSState :=
  let fs1 : FSState := { files := fs.files, dirs := mkdirParents fs.dirs path }
  if writeOk then
    (Except.ok (), { files := fun q => if q = path then some text else fs1.files q
                     dirs := fs1.dirs })
  else
    (Except.error "write failed", fs1)

/-- `load_notes` (note_overlay.py lines 214-221): if the path exists, try to
read it and replace the buffer with its contents; a read failure
(`readOk = false`) is caught and logged, leaving the buffer unchanged; a
nonexistent path does nothing. Returns the new buffer and the log lines.
The function is total: no case raises. -/
def load_notes (buffer : String) (path : FilePath) (fs : FSState) (readOk : Bool) :
    String × List String :=
  match fs.files path with
  | none => (buffer, [])
  | some c => if readOk then (c, []) else (buffer, ["Failed to load notes: read error"])

/-- `_do_autosave` (note_overlay.py lines 201-206): call `save_notes` on the
fixed `DEFAULT_SAVE` path, catching any exception and logging it. Returns
the (unchanged) buffer, the new file-system state and the log lines; the
function is total, so a failed write never escapes. -/
def _do_autosave (buffer : String) (fs : FSState) (writeOk : Bool) :
    String × FSState × List String :=
  match save_notes buffer DEFAULT_SAVE fs writeOk with
  | (Except.ok _, fs1) => (buffer, fs1, [])
  | (Except.error e, fs1) => (buffer, fs1, ["Autosave failed: " ++ e])

/-- Ctrl+S branch of `keyPressEvent` (note_overlay.py lines 265-271): save
immediately to `DEFAULT_SAVE`, catching any exception and logging it. The
autosave timer deadline is passed through untouched: the handler never
stops or restarts the timer. -/
def ctrlS_save (buffer : String) (deadline : Option Nat) (fs : FSState) (writeOk : Bool) :
    String × Option Nat × FSState × List String :=
  match save_notes buffer DEFAULT_SAVE fs writeOk with
  | (Except.ok _, fs1) => (buffer, deadline, fs1, [])
  | (Except.error e, fs1) => (buffer, deadline, fs1, ["Save failed: " ++ e])

/-- Window state touched by `toggle_pinned`: the `always_on_top` flag, the
`WindowStaysOnTopHint` window flag, the pin-button text and checked state,
and visibility (the source calls `show()` after each flag change). -/
structure PinState where
  always_on_top : Bool
  stays_on_top_hint : Bool
  pin_btn_text : String
  pin_btn_checked : Bool
  visible : Bool

/-- `toggle_pinned` (note_overlay.py lines 224-230): negate the flag, apply
it to the window flag, mirror it in the button text and checked state, and
re-show the window. -/
def toggle_pinned (st : PinState) : PinState :=
  let a := !st.always_on_top
  { always_on_top := a
    stays_on_top_hint := a
    pin_btn_text := if a then "Pinned" else "Unpinned"
    pin_btn_checked := a
    visible := true }

/-- Windows branch of `toggle_click_through` (note_overlay.py lines 236-246):
negate the flag; when enabling, set `exstyle | WS_EX_TRANSPARENT | WS_EX_LAYERED`;
when disabling, set `exstyle & ~WS_EX_TRANSPARENT`. The extended style is the
32-bit style word read by `GetWindowLong`, so the bitwise complement of
`WS_EX_TRANSPARENT` is the 32-bit mask `(2 ^ 32 - 1) ^^^ WS_EX_TRANSPARENT`. -/
def toggle_click_through_win (click_through : Bool) (exstyle : Nat) : Bool × Nat :=
  let ct := !click_through
  if ct then
    (ct, exstyle ||| WS_EX_TRANSPARENT ||| WS_EX_LAYERED)
  else
    (ct, exstyle &&& ((2 ^ 32 - 1) ^^^ WS_EX_TRANSPARENT))

/-- User-visible events of the overlay that the temporal claims mention. A
`mutate` event is any buffer mutation whose `textChanged` signal fires
(keystroke, `clear`, or programmatic text replacement); `ctrlS` is the
immediate-save shortcut; `openFile` is the Ctrl+O open-file action. -/
inductive Event where
  | mutate (text : String)
  | ctrlS
  | openFile (path : FilePath)

/-- Simulation state for the timed behaviour: the buffer, the optional
absolute deadline of the single-shot autosave timer, the file system, and
the chronological log of performed writes (path, content). -/
structure Sim where
  buffer : String
  deadline : Option Nat
  fs : FSState
  writes : List (FilePath × String)

/-- Timer expiry: `_do_autosave` writes the buffer to `DEFAULT_SAVE` (writes
succeed in the timed model) and the single-shot timer goes idle. -/
def doFire (s : Sim) : Sim :=
  { buffer := s.buffer
    deadline := none
    fs := (save_notes s.buffer DEFAULT_SAVE s.fs true).2
    writes := s.writes ++ [(DEFAULT_SAVE, s.buffer)] }

/-- Deliver a due timer expiry before handling an event at time `t`. -/
def fireDue (s : Sim) (t : Nat) : Sim :=
  match s.deadline with
  | some d => if d ≤ t then doFire s else s
  | none => s

/-- Event handler at time `t`. A `mutate` updates the buffer and calls
`_on_text_changed`, which restarts the single-shot 2000 ms timer
(note_overlay.py lines 197-199): the deadline becomes `t + 2000`, cancelling
any pending fire. `ctrlS` saves immediately without touching the timer
(lines 265-271). `openFile` runs `load_notes`; a successful read calls
`setPlainText`, whose `textChanged` signal also restarts the timer
(lines 118-120 and 214-221). -/
def handle (s : Sim) (t : Nat) (e : Event) : Sim :=
  match e with
  | Event.mutate x =>
      { s with buffer := x, deadline := some (t + 2000) }
  | Event.ctrlS =>
      { s with fs := (save_notes s.buffer DEFAULT_SAVE s.fs true).2
               writes := s.writes ++ [(DEFAULT_SAVE, s.buffer)] }
  | Event.openFile p =>
      match s.fs.files p with
      | some c => { s with buffer := c, deadline := some (t + 2000) }
      | none => s

/-- Process one timed event: fire a due timer first, then handle the event. -/
def stepAt (s : Sim) (te : Nat × Event) : Sim :=
  handle (fireDue s te.1) te.1 te.2

/-- Process a chronological list of timed events. -/
def runTrace (s : Sim) (evs : List (Nat × Event)) : Sim :=
  evs.foldl stepAt s

/-- Let time run to quiescence: a still-pending timer fires once. -/
def settle (s : Sim) : Sim :=
  match s.deadline with
  | some _ => doFire s
  | none => s

/-- Timed mutations as a trace of `mutate` events. -/
def mutationTrace (xs : List (Nat × String)) : List (Nat × Event) :=
  xs.map (fun p => (p.1, Event.mutate p.2))

/-- Checks that a list of timed mutations is strictly increasing in time and
each occurs less than 2000 ms after the previous time `t`. -/
def rapidFrom (t : Nat) (xs : List (Nat × String)) : Bool :=
  match xs with
  | [] => true
  | (u, _) :: rest => decide (t < u) && decide (u < t + 2000) && rapidFrom u rest

/-- Text of the last mutation, starting from `x`. -/
def lastText (x : String) (xs : List (Nat × String)) : String :=
  match xs with
  | [] => x
  | (_, y) :: rest => lastText y rest

/-- Time of the last mutation, starting from `t`. -/
def lastTime (t : Nat) (xs : List (Nat × String)) : Nat :=
  match xs with
  | [] => t
  | (u, _) :: rest => lastTime u rest

/-- Empty file system: no files, no directories. -/
def fsEmpty : FSState :=
  { files := fun _ => none, dirs := fun _ => false }

/-- File system after opening some other file: one note stored at a
non-default path. -/
def fsOpened : FSState :=
  { files := fun r => if r = ["~", "other.txt"] then some "opened" else none
    dirs := fun _ => false }

/-- Initial simulation state: empty buffer, idle timer, empty file system,
no writes performed. -/
def simInit : Sim :=
  { buffer := "", deadline := none, fs := fsEmpty, writes := [] }

/-! Basic reduction lemmas for the timed semantics. -/

/-- An idle timer never fires. -/
theorem fireDue_none (s : Sim) (t : Nat) (h : s.deadline = none) : fireDue s t = s := by
  unfold fireDue
  rw [h]

/-- A timer armed strictly later than now does not fire. -/
theorem fireDue_late (s : Sim) (t d : Nat) (h : s.deadline = some d) (hlt : t < d) :
    fireDue s t = s := by
  unfold fireDue
  rw [h]
  exact if_neg (by omega)

/-- Reduction of `save_notes` on a successful write. -/
theorem save_notes_ok (text : String) (path : FilePath) (g : FSState) :
    (save_notes text path g true).2 =
      { files := fun q => if q = path then some text else g.files q
        dirs := mkdirParents g.dirs path } := rfl

/-! Theorems settling the claims. -/

/-- C3: Round-trip. For every text `T` (the empty string and multi-line text
included), saving `T` to a path with `save_notes` succeeds (when the write
succeeds) and then loading from the same path with `load_notes` yields a
buffer equal to `T`, whatever the prior buffer and file system were. -/
theorem round_trip (T B : String) (p : FilePath) (fs : FSState) :
    (save_notes T p fs true).1 = Except.ok () ∧
    (load_notes B p (save_notes T p fs true).2 true).1 = T := by
  constructor
  · rfl
  · simp [save_notes, load_notes]

/-- C4: Error atomicity of save. When the file write fails, both the
autosave path and the Ctrl+S immediate-save path return normally (the
exception is caught), log the failure, leave the buffer unchanged and leave
the persisted contents of every file unchanged. -/
theorem save_failure_atomic (buffer : String) (d : Option Nat) (fs : FSState) :
    ((_do_autosave buffer fs false).1 = buffer ∧
     (_do_autosave buffer fs false).2.1.files = fs.files ∧
     (_do_autosave buffer fs false).2.2 = ["Autosave failed: write failed"]) ∧
    ((ctrlS_save buffer d fs false).1 = buffer ∧
     (ctrlS_save buffer d fs false).2.2.1.files = fs.files ∧
     (ctrlS_save buffer d fs false).2.2.2 = ["Save failed: write failed"]) := by
  constructor
  · exact ⟨rfl, rfl, rfl⟩
  · exact ⟨rfl, rfl, rfl⟩

/-- C5: Missing-file and failed load. Loading from a nonexistent path is a
no-op on the buffer (whether or not the read would succeed) and does not
raise; a failed read leaves the buffer at its prior value; only a
successful read replaces the buffer with the contents of the file. -/
theorem load_notes_missing_or_failed (buffer : String) (p : FilePath) (fs : FSState) :
    (fs.files p = none → ∀ ok, load_notes buffer p fs ok = (buffer, [])) ∧
    ((load_notes buffer p fs false).1 = buffer) ∧
    (∀ c, fs.files p = some c → (load_notes buffer p fs true).1 = c) := by
  refine ⟨fun h ok => ?_, ?_, fun c h => ?_⟩
  · simp [load_notes, h]
  · unfold load_notes
    cases hf : fs.files p <;> simp
  · simp [load_notes, h]

/-- C5 witness: concrete instances of the three cases of
`load_notes_missing_or_failed`. -/
theorem load_notes_missing_or_failed_witness :
    load_notes "prior" ["~", "gone.txt"] fsEmpty true = ("prior", []) ∧
    (load_notes "prior" ["~", "other.txt"] fsOpened false).1 = "prior" ∧
    (load_notes "prior" ["~", "other.txt"] fsOpened true).1 = "opened" :=
  ⟨(load_notes_missing_or_failed "prior" ["~", "gone.txt"] fsEmpty).1 rfl true,
   (load_notes_missing_or_failed "prior" ["~", "other.txt"] fsOpened).2.1,
   (load_notes_missing_or_failed "prior" ["~", "other.txt"] fsOpened).2.2 "opened"
     (by simp [fsOpened])⟩

/-- C6: Idempotent save. Saving the same buffer content twice in a row
leaves the file-system state after the second save identical to the state
after the first save (the persisted bytes at the path are `T` both times,
and no other path or directory differs). -/
theorem idempotent_save (T : String) (p : FilePath) (fs : FSState) :
    (save_notes T p (save_notes T p fs true).2 true).2 = (save_notes T p fs true).2 ∧
    (save_notes T p fs true).2.files p = some T := by
  rw [save_notes_ok, save_notes_ok]
  constructor
  · congr 1
    · funext q
      by_cases hq : q = p <;> simp [hq]
    · funext q
      unfold mkdirParents
      by_cases hm : (ancestorDirs p).contains q <;> simp [hm]
  · simp

/-- C2: Every save targets the fixed default path. Whatever file was
previously loaded via the open-file action (the buffer `b` is the result of
an arbitrary `load_notes` call), both the autosave path and the Ctrl+S
immediate-save path write the buffer verbatim to `DEFAULT_SAVE`, create its
parent directories, and touch no other path. -/
theorem save_targets_default_path (buffer b : String) (p q : FilePath) (dl : Option Nat)
    (fs : FSState) (readOk : Bool)
    (hb : b = (load_notes buffer p fs readOk).1) (hq : q ≠ DEFAULT_SAVE) :
    ((_do_autosave b fs true).2.1.files DEFAULT_SAVE = some b ∧
     (_do_autosave b fs true).2.1.files q = fs.files q ∧
     (∀ d, d ∈ ancestorDirs DEFAULT_SAVE → (_do_autosave b fs true).2.1.dirs d = true)) ∧
    ((ctrlS_save b dl fs true).2.2.1.files DEFAULT_SAVE = some b ∧
     (ctrlS_save b dl fs true).2.2.1.files q = fs.files q ∧
     (∀ d, d ∈ ancestorDirs DEFAULT_SAVE → (ctrlS_save b dl fs true).2.2.1.dirs d = true)) := by
  have h1 : (_do_autosave b fs true).2.1 = (save_notes b DEFAULT_SAVE fs true).2 := rfl
  have h2 : (ctrlS_save b dl fs true).2.2.1 = (save_notes b DEFAULT_SAVE fs true).2 := rfl
  rw [h1, h2, save_notes_ok]
  refine ⟨⟨by simp, by simp [hq], fun d hd => ?_⟩, by simp, by simp [hq], fun d hd => ?_⟩ <;>
    simp [mkdirParents, List.contains, hd]

/-- C2 witness: concrete instance of `save_targets_default_path` with a
buffer obtained by loading a non-default file. -/
theorem save_targets_default_path_witness :
    (_do_autosave "opened" fsOpened true).2.1.files DEFAULT_SAVE = some "opened" ∧
    (_do_autosave "opened" fsOpened true).2.1.files ["~", "other.txt"]
        = fsOpened.files ["~", "other.txt"] ∧
    (ctrlS_save "opened" (some 5) fsOpened true).2.2.1.files DEFAULT_SAVE
        = some "opened" ∧
    (_do_autosave "opened" fsOpened true).2.1.dirs ["~"] = true :=
  ⟨(save_targets_default_path "old" "opened" ["~", "other.txt"] ["~", "other.txt"]
      (some 5) fsOpened true rfl (by decide)).1.1,
   (save_targets_default_path "old" "opened" ["~", "other.txt"] ["~", "other.txt"]
      (some 5) fsOpened true rfl (by decide)).1.2.1,
   (save_targets_default_path "old" "opened" ["~", "other.txt"] ["~", "other.txt"]
      (some 5) fsOpened true rfl (by decide)).2.1,
   (save_targets_default_path "old" "opened" ["~", "other.txt"] ["~", "other.txt"]
      (some 5) fsOpened true rfl (by decide)).1.2.2 ["~"] (by decide)⟩

/-- C7: Click-through style bits on Windows. Enabling click-through turns
the flag on and sets both the `WS_EX_TRANSPARENT` bit (bit 5) and the
`WS_EX_LAYERED` bit (bit 19) of the extended style word; disabling turns
the flag off and clears `WS_EX_TRANSPARENT` while leaving `WS_EX_LAYERED`
exactly as it was (in particular a set layered bit stays set); in both
directions every bit other than bits 5 and 19 is unchanged (the style word
being a 32-bit quantity). -/
theorem click_through_style_bits (ex : Nat) (hex : ex < 2 ^ 32) :
    ((toggle_click_through_win false ex).1 = true ∧
     (toggle_click_through_win false ex).2.testBit 5 = true ∧
     (toggle_click_through_win false ex).2.testBit 19 = true ∧
     (∀ i, i ≠ 5 → i ≠ 19 → (toggle_click_through_win false ex).2.testBit i = ex.testBit i)) ∧
    ((toggle_click_through_win true ex).1 = false ∧
     (toggle_click_through_win true ex).2.testBit 5 = false ∧
     (toggle_click_through_win true ex).2.testBit 19 = ex.testBit 19 ∧
     (∀ i, i ≠ 5 → (toggle_click_through_win true ex).2.testBit i = ex.testBit i)) := by
  have hon : (toggle_click_through_win false ex).2 = ex ||| 2 ^ 5 ||| 2 ^ 19 := rfl
  have hoff : (toggle_click_through_win true ex).2 = ex &&& ((2 ^ 32 - 1) ^^^ 2 ^ 5) := rfl
  have hoth : ∀ i, i ≠ 5 → (ex &&& ((2 ^ 32 - 1) ^^^ 2 ^ 5)).testBit i = ex.testBit i := by
    intro i hi
    simp only [Nat.testBit_and, Nat.testBit_xor, Nat.testBit_two_pow_sub_one,
      Nat.testBit_two_pow]
    rcases Nat.lt_or_ge i 32 with h32 | h32
    · simp [h32, Ne.symm hi]
    · have hz : ex.testBit i = false :=
        Nat.testBit_lt_two_pow (lt_of_lt_of_le hex (Nat.pow_le_pow_right (by norm_num) h32))
      simp [hz]
  refine ⟨⟨rfl, ?_, ?_, fun i h5 h19 => ?_⟩, rfl, ?_, ?_, fun i h5 => ?_⟩
  · rw [hon]
    simp only [Nat.testBit_or, Nat.testBit_two_pow]
    simp
  · rw [hon]
    simp only [Nat.testBit_or, Nat.testBit_two_pow]
    simp
  · rw [hon]
    simp only [Nat.testBit_or, Nat.testBit_two_pow]
    simp [Ne.symm h5, Ne.symm h19]
  · rw [hoff]
    simp only [Nat.testBit_and, Nat.testBit_xor, Nat.testBit_two_pow_sub_one,
      Nat.testBit_two_pow]
    simp
  · rw [hoff]
    exact hoth 19 (by norm_num)
  · rw [hoff]
    exact hoth i h5

/-- C7 witness: the theorem instantiated at the concrete style word `8`
(only bit 3 set), checking both toggle directions and an untouched bit. -/
theorem click_through_style_bits_witness :
    Nat.testBit (toggle_click_through_win false 8).2 5 = true ∧
    Nat.testBit (toggle_click_through_win false 8).2 19 = true ∧
    Nat.testBit (toggle_click_through_win false 8).2 3 = Nat.testBit 8 3 ∧
    Nat.testBit (toggle_click_through_win true 8).2 5 = false ∧
    Nat.testBit (toggle_click_through_win true 8).2 3 = Nat.testBit 8 3 :=
  ⟨(click_through_style_bits 8 (by norm_num)).1.2.1,
   (click_through_style_bits 8 (by norm_num)).1.2.2.1,
   (click_through_style_bits 8 (by norm_num)).1.2.2.2 3 (by norm_num) (by norm_num),
   (click_through_style_bits 8 (by norm_num)).2.2.1,
   (click_through_style_bits 8 (by norm_num)).2.2.2.2 3 (by norm_num)⟩

/-- C8: Pinned toggle involution. Each `toggle_pinned` flips the
`always_on_top` flag and mirrors the new value in the window flag and the
button checked state and label; toggling twice returns the flag, the window
flag, and the button state to the original flag value, every mirrored field
staying consistent with it. -/
theorem pinned_toggle_involution (st : PinState) :
    ((toggle_pinned st).always_on_top = !st.always_on_top ∧
     (toggle_pinned st).stays_on_top_hint = (toggle_pinned st).always_on_top ∧
     (toggle_pinned st).pin_btn_checked = (toggle_pinned st).always_on_top ∧
     (toggle_pinned st).pin_btn_text
        = (if (toggle_pinned st).always_on_top then "Pinned" else "Unpinned")) ∧
    ((toggle_pinned (toggle_pinned st)).always_on_top = st.always_on_top ∧
     (toggle_pinned (toggle_pinned st)).stays_on_top_hint = st.always_on_top ∧
     (toggle_pinned (toggle_pinned st)).pin_btn_checked = st.always_on_top ∧
     (toggle_pinned (toggle_pinned st)).pin_btn_text
        = (if st.always_on_top then "Pinned" else "Unpinned")) := by
  cases h : st.always_on_top <;> simp [toggle_pinned, h]

/-- Behaviour of a rapid mutation run while the timer deadline is `t + 2000`:
no timer fires during the run, the buffer tracks the last mutation, the
deadline ends 2000 ms past the last mutation, and neither the write log nor
the file system changes. -/
theorem runTrace_rapid (xs : List (Nat × String)) :
    ∀ (s : Sim) (t : Nat), s.deadline = some (t + 2000) → rapidFrom t xs = true →
      (runTrace s (mutationTrace xs)).buffer = lastText s.buffer xs ∧
      (runTrace s (mutationTrace xs)).deadline = some (lastTime t xs + 2000) ∧
      (runTrace s (mutationTrace xs)).writes = s.writes ∧
      (runTrace s (mutationTrace xs)).fs = s.fs := by
  induction xs with
  | nil =>
      intro s t hd _
      exact ⟨rfl, by rw [lastTime]; exact hd, rfl, rfl⟩
  | cons p rest ih =>
      intro s t hd hr
      obtain ⟨u, y⟩ := p
      rw [rapidFrom] at hr
      simp only [Bool.and_eq_true, decide_eq_true_eq] at hr
      obtain ⟨⟨htu, hu2⟩, hrest⟩ := hr
      have hstep : stepAt s (u, Event.mutate y) =
          { s with buffer := y, deadline := some (u + 2000) } := by
        unfold stepAt
        rw [fireDue_late s u (t + 2000) hd hu2]
        rfl
      have hrun : runTrace s (mutationTrace ((u, y) :: rest)) =
          runTrace { s with buffer := y, deadline := some (u + 2000) }
            (mutationTrace rest) := by
        show runTrace (stepAt s (u, Event.mutate y)) (mutationTrace rest) = _
        rw [hstep]
      obtain ⟨ib, idl, iw, ifs⟩ :=
        ih { s with buffer := y, deadline := some (u + 2000) } u rfl hrest
      rw [hrun]
      exact ⟨ib, idl, iw, ifs⟩

/-- C1: Debounce collapsing. Starting from an idle timer, a first mutation
at time `t0` followed by any rapid sequence of mutations (each strictly
later than, and less than 2000 ms after, the previous one) produces, once
time runs to quiescence, exactly one flush; that single write targets
`DEFAULT_SAVE` and persists the buffer state as of the last mutation. -/
theorem debounce_collapsing (t0 : Nat) (x : String) (xs : List (Nat × String)) (s0 : Sim)
    (hd : s0.deadline = none) (hw : s0.writes = []) (hr : rapidFrom t0 xs = true) :
    (settle (runTrace s0 (mutationTrace ((t0, x) :: xs)))).writes
        = [(DEFAULT_SAVE, lastText x xs)] ∧
    (settle (runTrace s0 (mutationTrace ((t0, x) :: xs)))).fs.files DEFAULT_SAVE
        = some (lastText x xs) := by
  have hstep : stepAt s0 (t0, Event.mutate x) =
      { s0 with buffer := x, deadline := some (t0 + 2000) } := by
    unfold stepAt
    rw [fireDue_none s0 t0 hd]
    rfl
  have hrun : runTrace s0 (mutationTrace ((t0, x) :: xs)) =
      runTrace { s0 with buffer := x, deadline := some (t0 + 2000) }
        (mutationTrace xs) := by
    show runTrace (stepAt s0 (t0, Event.mutate x)) (mutationTrace xs) = _
    rw [hstep]
  obtain ⟨ib, idl, iw, ifs⟩ :=
    runTrace_rapid xs { s0 with buffer := x, deadline := some (t0 + 2000) } t0 rfl hr
  rw [hrun]
  have hset : settle (runTrace { s0 with buffer := x, deadline := some (t0 + 2000) }
      (mutationTrace xs)) =
      doFire (runTrace { s0 with buffer := x, deadline := some (t0 + 2000) }
        (mutationTrace xs)) := by
    unfold settle
    rw [idl]
  rw [hset]
  constructor
  · simp only [doFire, iw, ib]
    simp [hw]
  · simp only [doFire, ifs, ib]
    simp [save_notes]

/-- C1 witness: two rapid mutations collapse to a single flush of the last
text. -/
theorem debounce_collapsing_witness :
    (settle (runTrace simInit (mutationTrace [(0, "h"), (1, "he")]))).writes
        = [(DEFAULT_SAVE, lastText "h" [(1, "he")])] ∧
    (settle (runTrace simInit (mutationTrace [(0, "h"), (1, "he")]))).fs.files DEFAULT_SAVE
        = some (lastText "h" [(1, "he")]) :=
  debounce_collapsing 0 "h" [(1, "he")] simInit rfl rfl (by decide)

/-- C9: Opening a different file arms the autosave. Starting from an idle
timer and empty write log, an open-file action at time `t` on a readable
path `p` holding contents `c` different from the buffer replaces the buffer
and starts the 2000 ms debounce timer; after one quiet period the opened
contents are autosaved to `DEFAULT_SAVE`, overwriting the persisted default
note. -/
theorem open_file_autosaves_default (t : Nat) (c : String) (p : FilePath) (s : Sim)
    (hd : s.deadline = none) (hw : s.writes = []) (hp : s.fs.files p = some c)
    (hne : c ≠ s.buffer) :
    (runTrace s [(t, Event.openFile p)]).deadline = some (t + 2000) ∧
    (settle (runTrace s [(t, Event.openFile p)])).writes = [(DEFAULT_SAVE, c)] ∧
    (settle (runTrace s [(t, Event.openFile p)])).fs.files DEFAULT_SAVE = some c := by
  have hrun : runTrace s [(t, Event.openFile p)] =
      { s with buffer := c, deadline := some (t + 2000) } := by
    show stepAt s (t, Event.openFile p) = _
    unfold stepAt
    rw [fireDue_none s t hd]
    show (match s.fs.files p with
      | some c => { s with buffer := c, deadline := some (t + 2000) }
      | none => s) = _
    rw [hp]
  rw [hrun]
  refine ⟨rfl, ?_, ?_⟩
  · simp [settle, doFire, hw]
  · simp [settle, doFire, save_notes]

/-- C9 witness: opening the stored non-default note from the initial state
autosaves its contents to the default path after the quiet period. -/
theorem open_file_autosaves_default_witness :
    (runTrace { simInit with fs := fsOpened }
        [(5, Event.openFile ["~", "other.txt"])]).deadline = some (5 + 2000) ∧
    (settle (runTrace { simInit with fs := fsOpened }
        [(5, Event.openFile ["~", "other.txt"])])).writes = [(DEFAULT_SAVE, "opened")] ∧
    (settle (runTrace { simInit with fs := fsOpened }
        [(5, Event.openFile ["~", "other.txt"])])).fs.files DEFAULT_SAVE = some "opened" :=
  open_file_autosaves_default 5 "opened" ["~", "other.txt"] { simInit with fs := fsOpened }
    rfl rfl (by simp [fsOpened]) (by decide)

/-- C10: The immediate save does not stop a pending debounce timer. After a
mutation at `t0` and a Ctrl+S at `t1` before the deadline, the timer is
still armed for `t0 + 2000`, and once time runs to quiescence two writes of
the same buffer have been performed to `DEFAULT_SAVE`: the immediate one
and the later timer-driven one. -/
theorem ctrlS_keeps_timer_pending (t0 t1 : Nat) (x : String) (s : Sim)
    (hd : s.deadline = none) (hw : s.writes = [])
    (h01 : t0 < t1) (h12 : t1 < t0 + 2000) :
    (runTrace s [(t0, Event.mutate x), (t1, Event.ctrlS)]).deadline = some (t0 + 2000) ∧
    (settle (runTrace s [(t0, Event.mutate x), (t1, Event.ctrlS)])).writes
        = [(DEFAULT_SAVE, x), (DEFAULT_SAVE, x)] := by
  have hstep1 : stepAt s (t0, Event.mutate x) =
      { s with buffer := x, deadline := some (t0 + 2000) } := by
    unfold stepAt
    rw [fireDue_none s t0 hd]
    rfl
  have hrun : runTrace s [(t0, Event.mutate x), (t1, Event.ctrlS)] =
      handle { s with buffer := x, deadline := some (t0 + 2000) } t1 Event.ctrlS := by
    show stepAt (stepAt s (t0, Event.mutate x)) (t1, Event.ctrlS) = _
    rw [hstep1]
    unfold stepAt
    rw [fireDue_late { s with buffer := x, deadline := some (t0 + 2000) } t1 (t0 + 2000)
      rfl h12]
  rw [hrun]
  constructor
  · rfl
  · simp [handle, settle, doFire, hw]

/-- C10 witness: a mutation at time 0 and a Ctrl+S at time 1 leave the timer
armed for 2000 and produce two identical writes to the default path. -/
theorem ctrlS_keeps_timer_pending_witness :
    (runTrace simInit [(0, Event.mutate "abc"), (1, Event.ctrlS)]).deadline
        = some (0 + 2000) ∧
    (settle (runTrace simInit [(0, Event.mutate "abc"), (1, Event.ctrlS)])).writes
        = [(DEFAULT_SAVE, "abc"), (DEFAULT_SAVE, "abc")] :=
  ctrlS_keeps_timer_pending 0 1 "abc" simInit rfl rfl (by decide) (by decide)

end NoteOverlay
